import Mathlib

/-!
# ObstacleDistanceGradient (stomp_moveit cost function)

A shallow embedding of
`src/stomp_moveit/src/cost_functions/obstacle_distance_gradient.cpp`.

Conventions of the embedding

* `double` values are exact rationals (`ℚ`): rounding, infinities and NaN are
  not represented.
* `std::size_t` values are natural numbers; the one arithmetic operation the
  source performs on them (`start_timestep + num_timesteps`) is reduced modulo
  `2 ^ 64`.
* A `shared_ptr` member is an `Option`; dereferencing an empty one, indexing an
  Eigen vector or matrix outside its extent, and building an Eigen vector of
  negative size end the call with a `Fault` instead of a return value.
* MoveIt, the distance-field library and XmlRpc are outside the repository.
  Their types and functions are the fields of `MoveIt`, so every theorem
  holds for every behaviour of these collaborators.
* Member functions take the object as `self` and return the new object next
  to the C++ return value and the out-parameters.
-/

namespace stomp_moveit

/-- The number of values of a `std::size_t` (64-bit target). -/
def SIZE_MODULUS : Nat := 2 ^ 64

/-- The number of non-negative values of an `Eigen::Index` (`std::ptrdiff_t`). -/
def INDEX_MODULUS : Nat := 2 ^ 63

/-- Ways in which a call ends without returning. -/
inductive Fault where
  /-- An empty `shared_ptr` was dereferenced. -/
  | nullDereference
  /-- An Eigen coefficient or column access outside the object's extent. -/
  | indexOutOfRange
  /-- An Eigen vector was requested with a size that is negative as `Eigen::Index`. -/
  | negativeSize
  deriving DecidableEq, Repr

/-- The value `moveit_msgs::MoveItErrorCodes::SUCCESS`. -/
def MoveItErrorCodes.SUCCESS : Int := 1

/-- The part of `XmlRpc::XmlRpcValue` that `configure` can observe on a struct
member: its dynamic type and, for a double, its value. -/
inductive XmlRpcValue where
  | invalid
  | boolean (b : Bool)
  | int (i : Int)
  | double (x : ℚ)
  | string (s : String)
  | other
  deriving DecidableEq, Repr

/-- A configuration struct: its members in order. A configuration value that
is not a struct has no members. -/
abbrev XmlRpcStruct := List (String × XmlRpcValue)

/-- `XmlRpcValue::hasMember`. -/
def XmlRpcStruct.hasMember (config : XmlRpcStruct) (name : String) : Bool :=
  config.any (fun kv => kv.1 == name)

/-- `static_cast<double>(c[name])` on a struct that has the member: the value of
a double, zero for a member of invalid type (which the cast turns into a
double), and `none` (an `XmlRpcException`) for every other type. -/
def XmlRpcStruct.asDouble (config : XmlRpcStruct) (name : String) : Option ℚ :=
  match config.find? (fun kv => kv.1 == name) with
  | some (_, XmlRpcValue.double x) => some x
  | some (_, XmlRpcValue.invalid) => some 0
  | _ => none

/-- `Eigen::MatrixXd` as the list of its columns (one column per waypoint). -/
abbrev MatrixXd := List (List ℚ)

/-- `Eigen::VectorXd`. -/
abbrev VectorXd := List ℚ

/-- `MatrixXd::cols()`. -/
def MatrixXd.cols (m : MatrixXd) : Nat := m.length

/-- `MatrixXd::col(t)`. -/
def MatrixXd.col (m : MatrixXd) (t : Nat) : Except Fault (List ℚ) :=
  match m.get? t with
  | some c => Except.ok c
  | none => Except.error Fault.indexOutOfRange

/-- `Eigen::VectorXd::Zero(n)` for a `std::size_t` argument `n`, which the call
converts to the signed `Eigen::Index`. -/
def VectorXd.Zero (n : Nat) : Except Fault VectorXd :=
  if n % SIZE_MODULUS < INDEX_MODULUS then Except.ok (List.replicate n 0)
  else Except.error Fault.negativeSize

/-- The assignment `costs(t) = cost`. -/
def VectorXd.assign (costs : VectorXd) (t : Nat) (cost : ℚ) : Except Fault VectorXd :=
  if t < costs.length then Except.ok (costs.set t cost)
  else Except.error Fault.indexOutOfRange

/-- The types and functions of MoveIt and of the distance-field library that the
cost function uses. -/
structure MoveIt where
  RobotModel : Type
  JointModelGroup : Type
  RobotState : Type
  RobotStateMsg : Type
  AllowedCollisionMatrix : Type
  StompConfiguration : Type
  CollisionRobotOpenVDB : Type
  /-- `RobotModel::getJointModelGroup`. -/
  getJointModelGroup : RobotModel → String → JointModelGroup
  /-- `new RobotState(robot_model_ptr_)`. -/
  newRobotState : Option RobotModel → RobotState
  /-- `robotStateMsgToRobotState(msg, state, true)`: the returned flag and the
  state it leaves behind. -/
  robotStateMsgToRobotState : RobotStateMsg → RobotState → Bool × RobotState
  /-- `RobotState::setJointGroupPositions`. -/
  setJointGroupPositions : RobotState → JointModelGroup → List ℚ → RobotState
  /-- `RobotState::update`. -/
  update : RobotState → RobotState
  /-- `new distance_field::CollisionRobotOpenVDB(model, voxel, background,
  exBandWidth, inBandWidth)`. -/
  newCollisionRobotOpenVDB : Option RobotModel → ℚ → ℚ → ℚ → ℚ → CollisionRobotOpenVDB
  /-- `CollisionRobotOpenVDB::distanceSelf`: the `minimum_distance.min_distance`
  it stores in the result. -/
  distanceSelf : CollisionRobotOpenVDB → String → Option AllowedCollisionMatrix →
    RobotState → ℚ

/-- `planning_scene::PlanningScene`, as far as the cost function reads it. -/
structure PlanningScene (X : MoveIt) where
  getAllowedCollisionMatrix : X.AllowedCollisionMatrix

/-- `moveit_msgs::MotionPlanRequest`, as far as the cost function reads it. -/
structure MotionPlanRequest (X : MoveIt) where
  start_state : X.RobotStateMsg

/-- `collision_detection::DistanceRequest`, as far as the cost function sets it. -/
structure DistanceRequest (X : MoveIt) where
  group_name : String
  acm : Option X.AllowedCollisionMatrix

/-- The data members of `ObstacleDistanceGradient`. -/
structure ObstacleDistanceGradient (X : MoveIt) where
  name_ : String
  robot_model_ptr_ : Option X.RobotModel
  group_name_ : String
  planning_scene_ : Option (PlanningScene X)
  plan_request_ : Option (MotionPlanRequest X)
  distance_request_ : DistanceRequest X
  robot_state_ : Option X.RobotState
  collision_robot_df_ : Option X.CollisionRobotOpenVDB
  max_distance_ : ℚ
  cost_weight_ : ℚ
  voxel_size_ : ℚ

/-- The distance-to-cost rule of `computeCosts` (the `if / else if / else` on
`res.minimum_distance.min_distance`). -/
def distanceCost (max_distance_ min_distance : ℚ) : ℚ :=
  if min_distance ≥ max_distance_ then
    0
  else if min_distance < 0 then
    1
  else
    (max_distance_ - min_distance) / max_distance_

/-- `ObstacleDistanceGradient::configure`: the returned flag and the object it
leaves behind. The three members are assigned in the order of the source, so
an exception raised by a later cast leaves the earlier assignments in place. -/
def configure (X : MoveIt) (self : ObstacleDistanceGradient X) (config : XmlRpcStruct) :
    Bool × ObstacleDistanceGradient X :=
  -- check parameter presence
  if !(["cost_weight", "voxel_size", "max_distance"].all (fun m => config.hasMember m)) then
    (false, self)
  else
    match config.asDouble "max_distance" with
    | none => (false, self)
    | some max_distance =>
      let self1 := { self with max_distance_ := max_distance }
      match config.asDouble "cost_weight" with
      | none => (false, self1)
      | some cost_weight =>
        let self2 := { self1 with cost_weight_ := cost_weight }
        match config.asDouble "voxel_size" with
        | none => (false, self2)
        | some voxel_size =>
          let self3 := { self2 with voxel_size_ := voxel_size }
          -- initialize distance field based Collision Robot
          match self3.collision_robot_df_ with
          | none =>
            let bandwidth := self3.max_distance_ / self3.voxel_size_
            (true, { self3 with
              collision_robot_df_ := some (X.newCollisionRobotOpenVDB self3.robot_model_ptr_
                self3.voxel_size_ self3.max_distance_ bandwidth bandwidth) })
          | some _ => (true, self3)

/-- `ObstacleDistanceGradient::setMotionPlanRequest`: the returned flag, the
value left in `error_code.val`, and the object it leaves behind. -/
def setMotionPlanRequest (X : MoveIt) (self : ObstacleDistanceGradient X)
    (planning_scene : Option (PlanningScene X)) (req : MotionPlanRequest X)
    (_config : X.StompConfiguration) (_error_code : Int) :
    Except Fault (Bool × Int × ObstacleDistanceGradient X) :=
  let self1 := { self with planning_scene_ := planning_scene, plan_request_ := some req }
  let error_code := MoveItErrorCodes.SUCCESS
  -- initialize distance request
  match self1.planning_scene_ with
  | none => Except.error Fault.nullDereference
  | some scene =>
    let self2 := { self1 with
      distance_request_ := { group_name := self1.group_name_,
                             acm := some scene.getAllowedCollisionMatrix } }
    -- storing robot state
    let fresh := X.newRobotState self2.robot_model_ptr_
    let converted := X.robotStateMsgToRobotState req.start_state fresh
    let self3 := { self2 with robot_state_ := some converted.2 }
    if !converted.1 then
      Except.ok (false, error_code, self3)
    else
      Except.ok (true, error_code, self3)

/-- One pass through the body of the loop of `computeCosts` at time step `t`:
the posed robot state and the cost vector after `costs(t) = cost`. -/
def computeCostsBody (X : MoveIt) (self : ObstacleDistanceGradient X)
    (joint_group : X.JointModelGroup) (parameters : MatrixXd) (t : Nat)
    (robot_state : X.RobotState) (costs : VectorXd) :
    Except Fault (X.RobotState × VectorXd) :=
  match parameters.col t with
  | Except.error f => Except.error f
  | Except.ok column =>
    let posed := X.update (X.setJointGroupPositions robot_state joint_group column)
    match self.collision_robot_df_ with
    | none => Except.error Fault.nullDereference
    | some df =>
      let min_distance := X.distanceSelf df self.distance_request_.group_name
        self.distance_request_.acm posed
      let cost := distanceCost self.max_distance_ min_distance
      match costs.assign t cost with
      | Except.error f => Except.error f
      | Except.ok costs1 => Except.ok (posed, costs1)

/-- The loop `for (auto t = start_timestep; t < bound; ++t)` of `computeCosts`,
with `remaining = bound - t` passes still to run. -/
def computeCostsLoop (X : MoveIt) (self : ObstacleDistanceGradient X)
    (joint_group : X.JointModelGroup) (parameters : MatrixXd) :
    (remaining : Nat) → (t : Nat) → X.RobotState → VectorXd →
    Except Fault (X.RobotState × VectorXd)
  | 0, _, robot_state, costs => Except.ok (robot_state, costs)
  | remaining + 1, t, robot_state, costs =>
    match computeCostsBody X self joint_group parameters t robot_state costs with
    | Except.error f => Except.error f
    | Except.ok (robot_state1, costs1) =>
      computeCostsLoop X self joint_group parameters remaining (t + 1) robot_state1 costs1

/-- What a returning call of `computeCosts` hands back. -/
structure ComputeCostsResult (X : MoveIt) where
  /-- The `bool` the call returns. -/
  returned : Bool
  /-- The out-parameter `costs`. -/
  costs : VectorXd
  /-- The out-parameter `validity`. -/
  validity : Bool
  /-- The object after the call. -/
  self : ObstacleDistanceGradient X

/-- `ObstacleDistanceGradient::computeCosts`. The arguments `costs` and
`validity` are the caller's values of the two out-parameters before the call. -/
def computeCosts (X : MoveIt) (self : ObstacleDistanceGradient X) (parameters : MatrixXd)
    (start_timestep num_timesteps : Nat) (_iteration_number _rollout_number : Int)
    (costs : VectorXd) (validity : Bool) : Except Fault (ComputeCostsResult X) :=
  match self.robot_state_ with
  | none => Except.ok ⟨false, costs, validity, self⟩
  | some robot_state =>
    -- allocating
    match VectorXd.Zero num_timesteps with
    | Except.error f => Except.error f
    | Except.ok costs1 =>
      match self.robot_model_ptr_ with
      | none => Except.error Fault.nullDereference
      | some robot_model =>
        let joint_group := X.getJointModelGroup robot_model self.group_name_
        let bound := (start_timestep + num_timesteps) % SIZE_MODULUS
        if parameters.cols < bound then
          Except.ok ⟨false, costs1, validity, self⟩
        else
          -- request the distance at each state
          match computeCostsLoop X self joint_group parameters (bound - start_timestep)
              start_timestep robot_state costs1 with
          | Except.error f => Except.error f
          | Except.ok (robot_state1, costs2) =>
            Except.ok ⟨true, costs2, true, { self with robot_state_ := some robot_state1 }⟩

/-- `ObstacleDistanceGradient::done`. -/
def done (X : MoveIt) (self : ObstacleDistanceGradient X) (_success : Bool)
    (_total_iterations : Int) (_final_cost : ℚ) : ObstacleDistanceGradient X :=
  { self with robot_state_ := none }

/-- The robot state after `remaining` passes of the loop of `computeCosts` from
time step `t`: each pass poses the state at its column and updates it. -/
def posedAfter (X : MoveIt) (joint_group : X.JointModelGroup) (parameters : MatrixXd) :
    (remaining : Nat) → (t : Nat) → X.RobotState → X.RobotState
  | 0, _, robot_state => robot_state
  | remaining + 1, t, robot_state =>
    posedAfter X joint_group parameters remaining (t + 1)
      (X.update (X.setJointGroupPositions robot_state joint_group
        ((parameters.get? t).getD [])))

/-- The mapped costs of the distances queried at columns `t`, `t + 1`, ...,
`t + remaining - 1`, each on the state posed at its column. -/
def queriedCosts (X : MoveIt) (self : ObstacleDistanceGradient X)
    (joint_group : X.JointModelGroup) (parameters : MatrixXd)
    (df : X.CollisionRobotOpenVDB) :
    (remaining : Nat) → (t : Nat) → X.RobotState → List ℚ
  | 0, _, _ => []
  | remaining + 1, t, robot_state =>
    let posed := X.update (X.setJointGroupPositions robot_state joint_group
      ((parameters.get? t).getD []))
    distanceCost self.max_distance_
        (X.distanceSelf df self.distance_request_.group_name self.distance_request_.acm posed) ::
      queriedCosts X self joint_group parameters df remaining (t + 1) posed

/-- The number of times a call of `configure` runs
`new distance_field::CollisionRobotOpenVDB(...)`: once when every cast succeeds
and no distance field is held, otherwise never. -/
def configureConstructions (X : MoveIt) (self : ObstacleDistanceGradient X)
    (config : XmlRpcStruct) : Nat :=
  if !(["cost_weight", "voxel_size", "max_distance"].all (fun m => config.hasMember m)) then
    0
  else
    match config.asDouble "max_distance" with
    | none => 0
    | some _ =>
      match config.asDouble "cost_weight" with
      | none => 0
      | some _ =>
        match config.asDouble "voxel_size" with
        | none => 0
        | some _ =>
          match self.collision_robot_df_ with
          | none => 1
          | some _ => 0

/-- The three branches of the distance-to-cost rule of `computeCosts`. -/
inductive CostBranch where
  /-- The branch `cost = 0` (away from obstacle). -/
  | away
  /-- The branch `cost = 1.0` (in collision). -/
  | collision
  /-- The branch `cost = (max_distance_ - min_distance) / max_distance_`. -/
  | ramp
  deriving DecidableEq, Repr

/-- The branch of the distance-to-cost rule that the conditions of
`computeCosts` select. -/
def distanceCostBranch (max_distance_ min_distance : ℚ) : CostBranch :=
  if min_distance ≥ max_distance_ then
    CostBranch.away
  else if min_distance < 0 then
    CostBranch.collision
  else
    CostBranch.ramp

/-! ## A concrete collaborator: a point robot on a line

The robot state is the list of joint values, a start-state message is an
optional list of joint values (absent when it cannot be converted), and the
distance of a posed state is its first joint value. -/

/-- A point robot on a line. -/
def lineRobot : MoveIt where
  RobotModel := Unit
  JointModelGroup := String
  RobotState := List ℚ
  RobotStateMsg := Option (List ℚ)
  AllowedCollisionMatrix := Unit
  StompConfiguration := Unit
  CollisionRobotOpenVDB := ℚ × ℚ
  getJointModelGroup := fun _ group => group
  newRobotState := fun _ => []
  robotStateMsgToRobotState := fun msg state =>
    match msg with
    | some joints => (true, joints)
    | none => (false, state)
  setJointGroupPositions := fun _ _ column => column
  update := fun state => state
  newCollisionRobotOpenVDB := fun _ voxel background _ _ => (voxel, background)
  distanceSelf := fun _ _ _ state => state.headD 0

/-- The object the constructor builds, with the robot model and group name
stored: no planning scene, no robot state, no distance field. -/
def lineRobotConstructed : ObstacleDistanceGradient lineRobot where
  name_ := "ObstacleDistanceGradient"
  robot_model_ptr_ := some ()
  group_name_ := "manipulator"
  planning_scene_ := none
  plan_request_ := none
  distance_request_ := { group_name := "", acm := none }
  robot_state_ := none
  collision_robot_df_ := none
  max_distance_ := 0
  cost_weight_ := 0
  voxel_size_ := 0

/-- The configuration of the scenarios: weight 1, voxel size 0.05, maximum
distance 0.1. -/
def scenarioConfig : XmlRpcStruct :=
  [("cost_weight", XmlRpcValue.double 1), ("voxel_size", XmlRpcValue.double (1 / 20)),
   ("max_distance", XmlRpcValue.double (1 / 10))]

/-- The point robot after a successful `configure`. -/
def lineRobotConfigured : ObstacleDistanceGradient lineRobot :=
  (configure lineRobot lineRobotConstructed scenarioConfig).2

/-- A planning scene of the point robot. -/
def lineRobotScene : PlanningScene lineRobot := { getAllowedCollisionMatrix := () }

/-- The point robot after `configure` and a successful `setMotionPlanRequest`
whose start state is the joint value 1. -/
def lineRobotBound : ObstacleDistanceGradient lineRobot :=
  match setMotionPlanRequest lineRobot lineRobotConfigured (some lineRobotScene)
      { start_state := some [1] } () 0 with
  | Except.ok (_, _, self) => self
  | Except.error _ => lineRobotConfigured

/-- The point robot after `configure` and a `setMotionPlanRequest` whose start
state cannot be converted. -/
def lineRobotFailedBind : ObstacleDistanceGradient lineRobot :=
  match setMotionPlanRequest lineRobot lineRobotConfigured (some lineRobotScene)
      { start_state := none } () 0 with
  | Except.ok (_, _, self) => self
  | Except.error _ => lineRobotConfigured

/-- Scenario 5: the configuration without the key `voxel_size`. -/
def missingVoxelConfig : XmlRpcStruct :=
  [("cost_weight", XmlRpcValue.double 1), ("max_distance", XmlRpcValue.double (1 / 10))]

/-- A configuration whose weight is an integer, which the cast to double rejects. -/
def intWeightConfig : XmlRpcStruct :=
  [("cost_weight", XmlRpcValue.int 1), ("voxel_size", XmlRpcValue.double (1 / 20)),
   ("max_distance", XmlRpcValue.double (1 / 10))]

/-- A valid configuration with another voxel size and maximum distance than
`scenarioConfig`. -/
def changedConfig : XmlRpcStruct :=
  [("cost_weight", XmlRpcValue.double 1), ("voxel_size", XmlRpcValue.double (1 / 50)),
   ("max_distance", XmlRpcValue.double (1 / 5))]

/-- A configuration with a negative weight and a maximum distance below the
voxel size. -/
def negativeConfig : XmlRpcStruct :=
  [("cost_weight", XmlRpcValue.double (-1)), ("voxel_size", XmlRpcValue.double (1 / 5)),
   ("max_distance", XmlRpcValue.double (1 / 10))]

/-- The value `L` is the limit of `f` at `a` from below. -/
def LeftLimitAt (f : ℚ → ℚ) (a L : ℚ) : Prop :=
  ∀ ε : ℚ, 0 < ε → ∃ δ : ℚ, 0 < δ ∧ ∀ d : ℚ, a - δ < d → d < a → |f d - L| < ε

/-! ## The distance-to-cost rule -/

theorem distanceCost_of_ge {M d : ℚ} (h : M ≤ d) : distanceCost M d = 0 := by
  unfold distanceCost
  rw [if_pos h]

theorem distanceCost_of_neg {M d : ℚ} (hM : 0 < M) (h : d < 0) : distanceCost M d = 1 := by
  unfold distanceCost
  rw [if_neg (by intro hge; exact absurd (lt_of_lt_of_le hM hge) (not_lt.mpr h.le)), if_pos h]

theorem distanceCost_of_ramp {M d : ℚ} (h0 : 0 ≤ d) (h : d < M) :
    distanceCost M d = (M - d) / M := by
  unfold distanceCost
  rw [if_neg (not_le.mpr h), if_neg (not_lt.mpr h0)]

theorem distanceCost_nonneg (M d : ℚ) : 0 ≤ distanceCost M d := by
  unfold distanceCost
  split_ifs with h1 h2
  · exact le_refl 0
  · exact zero_le_one
  · have hd : d < M := not_le.mp h1
    have h0 : 0 ≤ d := not_lt.mp h2
    exact div_nonneg (by linarith) (by linarith)

theorem distanceCost_le_one (M d : ℚ) : distanceCost M d ≤ 1 := by
  unfold distanceCost
  split_ifs with h1 h2
  · exact zero_le_one
  · exact le_refl 1
  · have hd : d < M := not_le.mp h1
    have h0 : 0 ≤ d := not_lt.mp h2
    have hM : 0 < M := lt_of_le_of_lt h0 hd
    rw [div_le_one hM]
    linarith

theorem distanceCost_at_zero {M : ℚ} (hM : 0 < M) : distanceCost M 0 = 1 := by
  rw [distanceCost_of_ramp (le_refl 0) hM, sub_zero, div_self (ne_of_gt hM)]

theorem distanceCost_leftLimit_zero {M : ℚ} (hM : 0 < M) :
    LeftLimitAt (distanceCost M) 0 1 := by
  intro ε hε
  refine ⟨1, one_pos, ?_⟩
  intro d _ hd
  rw [distanceCost_of_neg hM hd, sub_self, abs_zero]
  exact hε

/-- Below zero the cost is constantly one, so a limit from below at zero can
only be one. -/
theorem leftLimit_zero_unique {M L : ℚ} (hM : 0 < M)
    (hL : LeftLimitAt (distanceCost M) 0 L) : L = 1 := by
  by_contra hne
  have hpos : 0 < |1 - L| := abs_pos.mpr (sub_ne_zero.mpr (Ne.symm hne))
  obtain ⟨δ, hδ, hclose⟩ := hL (|1 - L|) hpos
  have h1 : (0 : ℚ) - δ < -(δ / 2) := by linarith
  have h2 : -(δ / 2) < (0 : ℚ) := by linarith
  have h := hclose (-(δ / 2)) h1 h2
  rw [distanceCost_of_neg hM h2] at h
  exact lt_irrefl _ h

/-! ## The loop of `computeCosts` -/

theorem VectorXd.assign_length {costs costs1 : VectorXd} {t : Nat} {cost : ℚ}
    (h : VectorXd.assign costs t cost = Except.ok costs1) : costs1.length = costs.length := by
  unfold VectorXd.assign at h
  split_ifs at h with ht
  cases h
  exact List.length_set _ _ _

theorem VectorXd.assign_lt {costs costs1 : VectorXd} {t : Nat} {cost : ℚ}
    (h : VectorXd.assign costs t cost = Except.ok costs1) : t < costs.length := by
  unfold VectorXd.assign at h
  split_ifs at h with ht
  exact ht

/-- A returning pass keeps the length of the cost vector and has written inside it. -/
theorem computeCostsBody_ok (X : MoveIt) (self : ObstacleDistanceGradient X)
    (joint_group : X.JointModelGroup) (parameters : MatrixXd) (t : Nat)
    (robot_state robot_state1 : X.RobotState) (costs costs1 : VectorXd)
    (h : computeCostsBody X self joint_group parameters t robot_state costs =
      Except.ok (robot_state1, costs1)) :
    t < costs.length ∧ costs1.length = costs.length := by
  unfold computeCostsBody at h
  split at h
  · cases h
  · split at h
    · cases h
    · dsimp only at h
      split at h
      · cases h
      · next costs2 hassign =>
        cases h
        exact ⟨VectorXd.assign_lt hassign, VectorXd.assign_length hassign⟩

/-- A loop that still has passes to run and whose last index lies outside the cost
vector does not return. -/
theorem computeCostsLoop_out_of_range (X : MoveIt) (self : ObstacleDistanceGradient X)
    (joint_group : X.JointModelGroup) (parameters : MatrixXd) :
    ∀ (remaining t : Nat) (robot_state : X.RobotState) (costs : VectorXd),
      0 < remaining → costs.length < t + remaining →
      ∃ f : Fault, computeCostsLoop X self joint_group parameters remaining t robot_state
        costs = Except.error f := by
  intro remaining
  induction remaining with
  | zero => intro t robot_state costs h; exact absurd h (lt_irrefl 0)
  | succ n ih =>
    intro t robot_state costs _ hlen
    unfold computeCostsLoop
    cases hbody : computeCostsBody X self joint_group parameters t robot_state costs with
    | error f => exact ⟨f, rfl⟩
    | ok pair =>
      obtain ⟨robot_state1, costs1⟩ := pair
      obtain ⟨hlt, hsame⟩ := computeCostsBody_ok X self joint_group parameters t robot_state
        robot_state1 costs costs1 hbody
      have hn : 0 < n := by omega
      exact ih (t + 1) robot_state1 costs1 hn (by omega)

/-- On a bound evaluator every request with a positive start index and a positive
count that passes the range check ends in a fault instead of a cost vector. -/
theorem computeCosts_positive_start_faults (X : MoveIt) (self : ObstacleDistanceGradient X)
    (parameters : MatrixXd) (start_timestep num_timesteps : Nat)
    (iteration_number rollout_number : Int) (costs : VectorXd) (validity : Bool)
    (robot_state : X.RobotState)
    (hstate : self.robot_state_ = some robot_state)
    (hstart : 0 < start_timestep) (hcount : 0 < num_timesteps)
    (hrange : start_timestep + num_timesteps ≤ parameters.cols)
    (hcols : parameters.cols < INDEX_MODULUS) :
    ∃ f : Fault, computeCosts X self parameters start_timestep num_timesteps
      iteration_number rollout_number costs validity = Except.error f := by
  have hI : INDEX_MODULUS = 2 ^ 63 := rfl
  have hS : SIZE_MODULUS = 2 ^ 64 := rfl
  have hbound : (start_timestep + num_timesteps) % SIZE_MODULUS =
      start_timestep + num_timesteps := Nat.mod_eq_of_lt (by omega)
  have hzero : VectorXd.Zero num_timesteps = Except.ok (List.replicate num_timesteps 0) := by
    unfold VectorXd.Zero
    rw [Nat.mod_eq_of_lt (by omega), if_pos (by omega)]
  unfold computeCosts
  simp only [hstate, hzero, hbound]
  cases hmodel : self.robot_model_ptr_ with
  | none => exact ⟨_, rfl⟩
  | some robot_model =>
    simp only [if_neg (not_lt.mpr hrange)]
    obtain ⟨f, hf⟩ := computeCostsLoop_out_of_range X self
      (X.getJointModelGroup robot_model self.group_name_) parameters
      (start_timestep + num_timesteps - start_timestep) start_timestep robot_state
      (List.replicate num_timesteps 0) (by omega) (by simp; omega)
    exact ⟨f, by rw [hf]⟩

theorem queriedCosts_length (X : MoveIt) (self : ObstacleDistanceGradient X)
    (joint_group : X.JointModelGroup) (parameters : MatrixXd) (df : X.CollisionRobotOpenVDB) :
    ∀ (remaining t : Nat) (robot_state : X.RobotState),
      (queriedCosts X self joint_group parameters df remaining t robot_state).length =
        remaining := by
  intro remaining
  induction remaining with
  | zero => intro t robot_state; rfl
  | succ n ih =>
    intro t robot_state
    simp only [queriedCosts, List.length_cons, ih]

theorem set_at_prefix_length (pre rest : List ℚ) (x c : ℚ) :
    (pre ++ x :: rest).set pre.length c = pre ++ c :: rest := by
  induction pre with
  | nil => rfl
  | cons a pre ih => simp only [List.cons_append, List.length_cons, List.set_cons_succ, ih]

/-- Started on a cost vector whose first `t` entries are written and whose other
`remaining` entries are zero, with all remaining columns inside the batch, the
loop returns and appends the queried costs to the written entries. -/
theorem computeCostsLoop_in_range (X : MoveIt) (self : ObstacleDistanceGradient X)
    (joint_group : X.JointModelGroup) (parameters : MatrixXd) (df : X.CollisionRobotOpenVDB)
    (hdf : self.collision_robot_df_ = some df) :
    ∀ (remaining t : Nat) (robot_state : X.RobotState) (written : List ℚ),
      written.length = t → t + remaining ≤ parameters.cols →
      computeCostsLoop X self joint_group parameters remaining t robot_state
        (written ++ List.replicate remaining 0) =
        Except.ok (posedAfter X joint_group parameters remaining t robot_state,
          written ++ queriedCosts X self joint_group parameters df remaining t robot_state) := by
  intro remaining
  induction remaining with
  | zero =>
    intro t robot_state written _ _
    simp only [computeCostsLoop, posedAfter, queriedCosts, List.replicate_zero]
  | succ n ih =>
    intro t robot_state written hlen hcols
    have ht : t < parameters.length := by
      have : parameters.cols = parameters.length := rfl
      omega
    obtain ⟨column, hcolumn⟩ : ∃ column, parameters.get? t = some column :=
      ⟨parameters.get ⟨t, ht⟩, List.get?_eq_get ht⟩
    have hassign : ∀ c : ℚ, VectorXd.assign (written ++ List.replicate (n + 1) 0) t c =
        Except.ok ((written ++ [c]) ++ List.replicate n 0) := by
      intro c
      unfold VectorXd.assign
      rw [if_pos (by simp only [List.length_append, List.length_replicate]; omega)]
      rw [List.replicate_succ, ← hlen, set_at_prefix_length, List.append_assoc]
      rfl
    unfold computeCostsLoop
    simp only [computeCostsBody, MatrixXd.col, hcolumn, hdf, hassign]
    rw [ih (t + 1) _ (written ++ [_]) (by simp only [List.length_append, List.length_singleton, hlen])
      (by omega)]
    simp only [posedAfter, queriedCosts, hcolumn, Option.getD_some, List.append_assoc,
      List.singleton_append]

/-- On a configured and bound evaluator every request that starts at column 0
and stays inside the batch returns true with validity true and the queried
costs, one per requested waypoint. -/
theorem computeCosts_from_zero (X : MoveIt) (self : ObstacleDistanceGradient X)
    (parameters : MatrixXd) (num_timesteps : Nat)
    (iteration_number rollout_number : Int) (costs : VectorXd) (validity : Bool)
    (robot_state : X.RobotState) (robot_model : X.RobotModel) (df : X.CollisionRobotOpenVDB)
    (hstate : self.robot_state_ = some robot_state)
    (hmodel : self.robot_model_ptr_ = some robot_model)
    (hdf : self.collision_robot_df_ = some df)
    (hrange : num_timesteps ≤ parameters.cols)
    (hcols : parameters.cols < INDEX_MODULUS) :
    computeCosts X self parameters 0 num_timesteps iteration_number rollout_number costs
      validity =
      Except.ok ⟨true,
        queriedCosts X self (X.getJointModelGroup robot_model self.group_name_) parameters df
          num_timesteps 0 robot_state,
        true,
        { self with robot_state_ := some (posedAfter X
          (X.getJointModelGroup robot_model self.group_name_) parameters num_timesteps 0
          robot_state) }⟩ := by
  have hI : INDEX_MODULUS = 2 ^ 63 := rfl
  have hS : SIZE_MODULUS = 2 ^ 64 := rfl
  have hzero : VectorXd.Zero num_timesteps = Except.ok (List.replicate num_timesteps 0) := by
    unfold VectorXd.Zero
    rw [Nat.mod_eq_of_lt (by omega), if_pos (by omega)]
  have hloop := computeCostsLoop_in_range X self
    (X.getJointModelGroup robot_model self.group_name_) parameters df hdf num_timesteps 0
    robot_state [] rfl (by omega)
  rw [List.nil_append, List.nil_append] at hloop
  unfold computeCosts
  simp only [hstate, hzero, hmodel, Nat.zero_add, Nat.mod_eq_of_lt (show num_timesteps <
    SIZE_MODULUS by omega), if_neg (not_lt.mpr hrange), Nat.sub_zero, hloop]

/-- A request whose range exceeds the columns and whose sum fits the machine
word is rejected on a bound evaluator. -/
theorem computeCosts_rejects_unwrapped_excess (X : MoveIt) (self : ObstacleDistanceGradient X)
    (parameters : MatrixXd) (start_timestep num_timesteps : Nat)
    (iteration_number rollout_number : Int) (costs : VectorXd) (validity : Bool)
    (robot_state : X.RobotState) (robot_model : X.RobotModel)
    (hstate : self.robot_state_ = some robot_state)
    (hmodel : self.robot_model_ptr_ = some robot_model)
    (hcount : num_timesteps < INDEX_MODULUS)
    (hfit : start_timestep + num_timesteps < SIZE_MODULUS)
    (hrange : parameters.cols < start_timestep + num_timesteps) :
    computeCosts X self parameters start_timestep num_timesteps iteration_number
      rollout_number costs validity =
      Except.ok ⟨false, List.replicate num_timesteps 0, validity, self⟩ := by
  have hI : INDEX_MODULUS = 2 ^ 63 := rfl
  have hS : SIZE_MODULUS = 2 ^ 64 := rfl
  have hzero : VectorXd.Zero num_timesteps = Except.ok (List.replicate num_timesteps 0) := by
    unfold VectorXd.Zero
    rw [Nat.mod_eq_of_lt (by omega), if_pos hcount]
  unfold computeCosts
  simp only [hstate, hzero, hmodel, Nat.mod_eq_of_lt hfit, if_pos hrange]

/-- Whenever the start state cannot be converted, `setMotionPlanRequest` returns
false with `SUCCESS` in the error code and a robot state in place. -/
theorem setMotionPlanRequest_of_conversion_failure (X : MoveIt)
    (self : ObstacleDistanceGradient X) (scene : PlanningScene X) (req : MotionPlanRequest X)
    (config : X.StompConfiguration) (error_code : Int)
    (hfail : (X.robotStateMsgToRobotState req.start_state
      (X.newRobotState self.robot_model_ptr_)).1 = false) :
    ∃ self1 : ObstacleDistanceGradient X,
      setMotionPlanRequest X self (some scene) req config error_code =
        Except.ok (false, MoveItErrorCodes.SUCCESS, self1) ∧
      self1.robot_state_.isSome = true := by
  unfold setMotionPlanRequest
  simp only [hfail]
  exact ⟨_, rfl, rfl⟩

/-! ## Configuration -/

theorem configure_of_missing (X : MoveIt) (self : ObstacleDistanceGradient X)
    (config : XmlRpcStruct)
    (h : (["cost_weight", "voxel_size", "max_distance"].all
      (fun m => config.hasMember m)) = false) :
    configure X self config = (false, self) := by
  unfold configure
  rw [h]
  rfl

theorem configure_of_present (X : MoveIt) (self : ObstacleDistanceGradient X)
    (config : XmlRpcStruct)
    (h : (["cost_weight", "voxel_size", "max_distance"].all
      (fun m => config.hasMember m)) = true) :
    configure X self config =
      match config.asDouble "max_distance" with
      | none => (false, self)
      | some max_distance =>
        match config.asDouble "cost_weight" with
        | none => (false, { self with max_distance_ := max_distance })
        | some cost_weight =>
          match config.asDouble "voxel_size" with
          | none => (false, { self with max_distance_ := max_distance,
                                        cost_weight_ := cost_weight })
          | some voxel_size =>
            match self.collision_robot_df_ with
            | none => (true, { self with
                max_distance_ := max_distance, cost_weight_ := cost_weight,
                voxel_size_ := voxel_size,
                collision_robot_df_ := some (X.newCollisionRobotOpenVDB self.robot_model_ptr_
                  voxel_size max_distance (max_distance / voxel_size)
                  (max_distance / voxel_size)) })
            | some _ => (true, { self with
                max_distance_ := max_distance, cost_weight_ := cost_weight,
                voxel_size_ := voxel_size }) := by
  unfold configure
  rw [h]
  rfl

theorem all_members_iff (config : XmlRpcStruct) :
    (["cost_weight", "voxel_size", "max_distance"].all (fun m => config.hasMember m)) = true ↔
      config.hasMember "cost_weight" = true ∧ config.hasMember "voxel_size" = true ∧
        config.hasMember "max_distance" = true := by
  simp only [List.all_cons, List.all_nil, Bool.and_true, Bool.and_eq_true]


/-- A held distance field survives every call of `configure`, which then
constructs nothing. -/
theorem configure_of_held_field (X : MoveIt) (self : ObstacleDistanceGradient X)
    (config : XmlRpcStruct) (df : X.CollisionRobotOpenVDB)
    (hheld : self.collision_robot_df_ = some df) :
    (configure X self config).2.collision_robot_df_ = some df ∧
      configureConstructions X self config = 0 := by
  cases hall : (["cost_weight", "voxel_size", "max_distance"].all
      (fun m => config.hasMember m)) with
  | false =>
    rw [configure_of_missing X self config hall]
    refine ⟨hheld, ?_⟩
    unfold configureConstructions
    rw [hall]
    rfl
  | true =>
    rw [configure_of_present X self config hall]
    unfold configureConstructions
    rw [hall]
    cases config.asDouble "max_distance" <;> cases config.asDouble "cost_weight" <;>
      cases config.asDouble "voxel_size" <;> simp [hheld]

/-- With all three keys present and coercible, `configure` succeeds and stores
the values; without a held field it constructs one from them. -/
theorem configure_of_coercible (X : MoveIt) (self : ObstacleDistanceGradient X)
    (config : XmlRpcStruct) (m w v : ℚ)
    (hall : (["cost_weight", "voxel_size", "max_distance"].all
      (fun k => config.hasMember k)) = true)
    (hm : config.asDouble "max_distance" = some m)
    (hw : config.asDouble "cost_weight" = some w)
    (hv : config.asDouble "voxel_size" = some v) :
    configure X self config =
      match self.collision_robot_df_ with
      | none => (true, { self with
          max_distance_ := m, cost_weight_ := w, voxel_size_ := v,
          collision_robot_df_ := some (X.newCollisionRobotOpenVDB self.robot_model_ptr_
            v m (m / v) (m / v)) })
      | some _ => (true, { self with
          max_distance_ := m, cost_weight_ := w, voxel_size_ := v }) := by
  rw [configure_of_present X self config hall, hm, hw, hv]

/-- No call of `configure` touches the working robot state. -/
theorem configure_robot_state (X : MoveIt) (self : ObstacleDistanceGradient X)
    (config : XmlRpcStruct) :
    (configure X self config).2.robot_state_ = self.robot_state_ := by
  cases hall : (["cost_weight", "voxel_size", "max_distance"].all
      (fun m => config.hasMember m)) with
  | false => rw [configure_of_missing X self config hall]
  | true =>
    rw [configure_of_present X self config hall]
    cases config.asDouble "max_distance" <;> cases config.asDouble "cost_weight" <;>
      cases config.asDouble "voxel_size" <;> cases self.collision_robot_df_ <;> rfl

theorem foldl_configure_robot_state (X : MoveIt) (configs : List XmlRpcStruct) :
    ∀ self : ObstacleDistanceGradient X,
      (configs.foldl (fun s c => (configure X s c).2) self).robot_state_ =
        self.robot_state_ := by
  induction configs with
  | nil => intro self; rfl
  | cons c rest ih =>
    intro self
    rw [List.foldl_cons, ih, configure_robot_state]

/-! ## Frame of `computeCosts` -/

/-- The loop of `computeCosts` does not read the stored weight. -/
theorem computeCostsLoop_weight (X : MoveIt) (self : ObstacleDistanceGradient X)
    (joint_group : X.JointModelGroup) (parameters : MatrixXd) (w : ℚ) :
    ∀ (remaining t : Nat) (robot_state : X.RobotState) (costs : VectorXd),
      computeCostsLoop X { self with cost_weight_ := w } joint_group parameters remaining t
        robot_state costs =
      computeCostsLoop X self joint_group parameters remaining t robot_state costs := by
  intro remaining
  induction remaining with
  | zero => intro t robot_state costs; rfl
  | succ n ih =>
    intro t robot_state costs
    have hbody : computeCostsBody X { self with cost_weight_ := w } joint_group parameters t
        robot_state costs =
        computeCostsBody X self joint_group parameters t robot_state costs := rfl
    unfold computeCostsLoop
    rw [hbody]
    cases computeCostsBody X self joint_group parameters t robot_state costs with
    | error f => rfl
    | ok pair => exact ih (t + 1) pair.1 pair.2

/-- The value of the rule is the value of the branch the conditions select. -/
theorem distanceCost_eq_branch (M d : ℚ) :
    distanceCost M d =
      match distanceCostBranch M d with
      | CostBranch.away => 0
      | CostBranch.collision => 1
      | CostBranch.ramp => (M - d) / M := by
  unfold distanceCost distanceCostBranch
  split_ifs <;> rfl

theorem distanceCostBranch_ramp_iff (M d : ℚ) :
    distanceCostBranch M d = CostBranch.ramp ↔ 0 ≤ d ∧ d < M := by
  unfold distanceCostBranch
  split_ifs with h1 h2
  · simp only [false_iff, not_and, not_lt, reduceCtorEq]
    exact fun _ => h1
  · simp only [false_iff, not_and, not_lt, reduceCtorEq]
    exact fun h0 => absurd h0 (not_le.mpr h2)
  · simp only [true_iff]
    exact ⟨not_lt.mp h2, not_le.mp h1⟩

/-- Entry `i` of the queried costs is the rule applied to the distance queried on
the state posed at column `t + i`. -/
theorem queriedCosts_get (X : MoveIt) (self : ObstacleDistanceGradient X)
    (joint_group : X.JointModelGroup) (parameters : MatrixXd) (df : X.CollisionRobotOpenVDB) :
    ∀ (remaining t : Nat) (robot_state : X.RobotState) (i : Nat), i < remaining →
      (queriedCosts X self joint_group parameters df remaining t robot_state).get? i =
        some (distanceCost self.max_distance_
          (X.distanceSelf df self.distance_request_.group_name self.distance_request_.acm
            (posedAfter X joint_group parameters (i + 1) t robot_state))) := by
  intro remaining
  induction remaining with
  | zero => intro t robot_state i hi; exact absurd hi (Nat.not_lt_zero i)
  | succ n ih =>
    intro t robot_state i hi
    cases i with
    | zero => rfl
    | succ j =>
      have hj : j < n := Nat.lt_of_succ_lt_succ hi
      simp only [queriedCosts, List.get?_cons_succ]
      rw [ih (t + 1) _ j hj]
      rfl

/-- A call of `computeCosts` on a bound evaluator that returns true after at least
one pass of its loop started at column 0 with the whole range inside the batch,
and its cost vector is the vector of queried costs. -/
theorem computeCosts_returned_true (X : MoveIt) (self : ObstacleDistanceGradient X)
    (parameters : MatrixXd) (start_timestep num_timesteps : Nat)
    (iteration_number rollout_number : Int) (costs : VectorXd) (validity : Bool)
    (robot_state : X.RobotState) (robot_model : X.RobotModel) (df : X.CollisionRobotOpenVDB)
    (result : ComputeCostsResult X)
    (hstate : self.robot_state_ = some robot_state)
    (hmodel : self.robot_model_ptr_ = some robot_model)
    (hdf : self.collision_robot_df_ = some df)
    (hstart : start_timestep < SIZE_MODULUS) (hnum : num_timesteps < SIZE_MODULUS)
    (hres : computeCosts X self parameters start_timestep num_timesteps iteration_number
      rollout_number costs validity = Except.ok result)
    (hret : result.returned = true)
    (hpass : 0 < (start_timestep + num_timesteps) % SIZE_MODULUS - start_timestep) :
    start_timestep = 0 ∧
    (start_timestep + num_timesteps) % SIZE_MODULUS - start_timestep = num_timesteps ∧
    result.costs = queriedCosts X self (X.getJointModelGroup robot_model self.group_name_)
      parameters df num_timesteps 0 robot_state := by
  have hS : SIZE_MODULUS = 2 ^ 64 := rfl
  unfold computeCosts at hres
  simp only [hstate, hmodel] at hres
  unfold VectorXd.Zero at hres
  rw [Nat.mod_eq_of_lt hnum] at hres
  by_cases hsize : num_timesteps < INDEX_MODULUS
  · simp only [if_pos hsize] at hres
    by_cases hrange : parameters.cols < (start_timestep + num_timesteps) % SIZE_MODULUS
    · simp only [if_pos hrange, Except.ok.injEq] at hres
      rw [← hres] at hret
      cases hret
    · simp only [if_neg hrange] at hres
      cases hloop : computeCostsLoop X self (X.getJointModelGroup robot_model self.group_name_)
          parameters ((start_timestep + num_timesteps) % SIZE_MODULUS - start_timestep)
          start_timestep robot_state (List.replicate num_timesteps 0) with
      | error f =>
        rw [hloop] at hres
        cases hres
      | ok pair =>
        rw [hloop] at hres
        simp only [Except.ok.injEq] at hres
        have hfit : ¬ (List.replicate num_timesteps (0 : ℚ)).length <
            start_timestep + ((start_timestep + num_timesteps) % SIZE_MODULUS -
              start_timestep) := by
          intro hlt
          obtain ⟨f, hf⟩ := computeCostsLoop_out_of_range X self
            (X.getJointModelGroup robot_model self.group_name_) parameters _ start_timestep
            robot_state (List.replicate num_timesteps 0) hpass hlt
          rw [hf] at hloop
          cases hloop
        rw [List.length_replicate] at hfit
        have hzero : start_timestep = 0 := by
          by_cases hwrap : start_timestep + num_timesteps < SIZE_MODULUS
          · rw [Nat.mod_eq_of_lt hwrap] at hfit hpass
            omega
          · have hmod : (start_timestep + num_timesteps) % SIZE_MODULUS =
                start_timestep + num_timesteps - SIZE_MODULUS := by
              rw [Nat.mod_eq_sub_mod (by omega), Nat.mod_eq_of_lt (by omega)]
            rw [hmod] at hpass
            omega
        subst hzero
        simp only [Nat.zero_add, Nat.mod_eq_of_lt hnum, Nat.sub_zero] at hloop hrange ⊢
        have hin := computeCostsLoop_in_range X self
          (X.getJointModelGroup robot_model self.group_name_) parameters df hdf num_timesteps 0
          robot_state [] rfl (by omega)
        rw [List.nil_append, List.nil_append, hloop] at hin
        refine ⟨trivial, trivial, ?_⟩
        rw [← hres]
        exact congrArg Prod.snd (Except.ok.inj hin)
  · simp only [if_neg hsize] at hres
    cases hres

/-- One pass of the loop on a cost vector that contains index `t`: the pass
stores there the cost of the three-branch rule for the distance `d` its query
returned. -/
theorem computeCostsBody_cost_of_distance (X : MoveIt) (self : ObstacleDistanceGradient X)
    (joint_group : X.JointModelGroup) (parameters : MatrixXd) (t : Nat)
    (robot_state : X.RobotState) (costs : VectorXd) (column : List ℚ)
    (df : X.CollisionRobotOpenVDB) (d : ℚ)
    (hmax : 0 < self.max_distance_)
    (hcol : parameters.col t = Except.ok column)
    (hdf : self.collision_robot_df_ = some df)
    (ht : t < costs.length)
    (hd : X.distanceSelf df self.distance_request_.group_name self.distance_request_.acm
      (X.update (X.setJointGroupPositions robot_state joint_group column)) = d) :
    (∃ cost : ℚ,
      computeCostsBody X self joint_group parameters t robot_state costs =
        Except.ok (X.update (X.setJointGroupPositions robot_state joint_group column),
          costs.set t cost) ∧
      (self.max_distance_ ≤ d → cost = 0) ∧
      (d < 0 → cost = 1) ∧
      (0 ≤ d → d < self.max_distance_ →
        cost = (self.max_distance_ - d) / self.max_distance_)) ∧
    distanceCost (1 / 10) (1 / 20) = 1 / 2 := by
  refine ⟨⟨distanceCost self.max_distance_ d, ?_, ?_, ?_, ?_⟩, ?_⟩
  · simp only [computeCostsBody, hcol, hdf, hd, VectorXd.assign, if_pos ht]
  · exact fun h => distanceCost_of_ge h
  · exact fun h => distanceCost_of_neg hmax h
  · exact fun h0 h => distanceCost_of_ramp h0 h
  · rw [distanceCost_of_ramp (by norm_num) (by norm_num)]
    norm_num

/-- One pass on the point robot: maximum distance 0.1, a waypoint at distance
0.05, cost 0.5. -/
theorem computeCostsBody_cost_of_distance_scenario :
    (0 : ℚ) < lineRobotBound.max_distance_ ∧
    computeCostsBody lineRobot lineRobotBound "manipulator" [[1 / 20]] 0
      ([1] : List ℚ) [0] = Except.ok (([1 / 20] : List ℚ), [1 / 2]) := by
  have hmax : (0 : ℚ) < lineRobotBound.max_distance_ := by
    show (0 : ℚ) < 1 / 10
    norm_num
  obtain ⟨⟨cost, hbody, -, -, hramp⟩, -⟩ :=
    computeCostsBody_cost_of_distance lineRobot lineRobotBound "manipulator" [[1 / 20]] 0
      ([1] : List ℚ) [0] [1 / 20] ((1 / 20, 1 / 10) : ℚ × ℚ) (1 / 20) hmax rfl rfl
      (by decide) rfl
  have hcost : cost = 1 / 2 := by
    have h := hramp (by norm_num) (by show (1 / 20 : ℚ) < 1 / 10; norm_num)
    rw [h]
    show ((1 / 10 : ℚ) - 1 / 20) / (1 / 10) = 1 / 2
    norm_num
  refine ⟨hmax, ?_⟩
  rw [hbody, hcost]
  rfl

/-- For every evaluator and every argument triple `done` empties the working
robot state and changes no other member (stored weight, voxel size, maximum
distance and distance field included), and a `computeCosts` call on the object
it leaves behind, also after any number of `configure` calls, returns false for
every batch, start index and count, with the caller's cost vector and validity
flag untouched. -/
theorem done_releases_only_robot_state (X : MoveIt) (self : ObstacleDistanceGradient X)
    (success : Bool) (total_iterations : Int) (final_cost : ℚ) :
    (done X self success total_iterations final_cost).robot_state_ = none ∧
    (done X self success total_iterations final_cost).cost_weight_ = self.cost_weight_ ∧
    (done X self success total_iterations final_cost).voxel_size_ = self.voxel_size_ ∧
    (done X self success total_iterations final_cost).max_distance_ = self.max_distance_ ∧
    (done X self success total_iterations final_cost).collision_robot_df_ =
      self.collision_robot_df_ ∧
    (done X self success total_iterations final_cost).name_ = self.name_ ∧
    (done X self success total_iterations final_cost).robot_model_ptr_ =
      self.robot_model_ptr_ ∧
    (done X self success total_iterations final_cost).group_name_ = self.group_name_ ∧
    (done X self success total_iterations final_cost).planning_scene_ =
      self.planning_scene_ ∧
    (done X self success total_iterations final_cost).plan_request_ = self.plan_request_ ∧
    (done X self success total_iterations final_cost).distance_request_ =
      self.distance_request_ ∧
    ∀ (parameters : MatrixXd) (start_timestep num_timesteps : Nat)
      (iteration_number rollout_number : Int) (costs : VectorXd) (validity : Bool),
      computeCosts X (done X self success total_iterations final_cost) parameters
          start_timestep num_timesteps iteration_number rollout_number costs validity =
          Except.ok ⟨false, costs, validity,
            done X self success total_iterations final_cost⟩ ∧
        ∀ configs : List XmlRpcStruct,
          computeCosts X
            (configs.foldl (fun s c => (configure X s c).2)
              (done X self success total_iterations final_cost))
            parameters start_timestep num_timesteps iteration_number rollout_number costs
            validity =
            Except.ok ⟨false, costs, validity,
              configs.foldl (fun s c => (configure X s c).2)
                (done X self success total_iterations final_cost)⟩ := by
  refine ⟨rfl, rfl, rfl, rfl, rfl, rfl, rfl, rfl, rfl, rfl, rfl, ?_⟩
  intro parameters start_timestep num_timesteps iteration_number rollout_number costs validity
  refine ⟨by simp only [computeCosts, done], ?_⟩
  intro configs
  have hstate := foldl_configure_robot_state X configs
    (done X self success total_iterations final_cost)
  have hnone : (done X self success total_iterations final_cost).robot_state_ = none := rfl
  rw [hnone] at hstate
  simp only [computeCosts, hstate]

/-! ## Claims -/

/-- C1: on a configured and bound evaluator with a positive maximum distance,
every call of `computeCosts` that returns true hands back, for each pass its
loop ran, the cost of the distance `d` that the pass queried: 0 if
`d ≥ maxDistance`, 1 if `d < 0`, and `(maxDistance - d) / maxDistance`
otherwise. A call that starts at column 0 and stays inside the batch does
return true, with one cost per requested waypoint; distance 0.05 with maximum
distance 0.1 gives 0.5. -/
theorem computeCosts_cost_of_distance (X : MoveIt) (self : ObstacleDistanceGradient X)
    (parameters : MatrixXd) (start_timestep num_timesteps : Nat)
    (iteration_number rollout_number : Int) (costs : VectorXd) (validity : Bool)
    (robot_state : X.RobotState) (robot_model : X.RobotModel) (df : X.CollisionRobotOpenVDB)
    (hmax : 0 < self.max_distance_)
    (hstate : self.robot_state_ = some robot_state)
    (hmodel : self.robot_model_ptr_ = some robot_model)
    (hdf : self.collision_robot_df_ = some df)
    (hstart : start_timestep < SIZE_MODULUS) (hnum : num_timesteps < SIZE_MODULUS) :
    (∀ result : ComputeCostsResult X,
      computeCosts X self parameters start_timestep num_timesteps iteration_number
        rollout_number costs validity = Except.ok result →
      result.returned = true →
      ∀ k : Nat, k < (start_timestep + num_timesteps) % SIZE_MODULUS - start_timestep →
        ∃ d cost : ℚ,
          d = X.distanceSelf df self.distance_request_.group_name self.distance_request_.acm
            (posedAfter X (X.getJointModelGroup robot_model self.group_name_) parameters
              (k + 1) start_timestep robot_state) ∧
          result.costs.get? (start_timestep + k) = some cost ∧
          (self.max_distance_ ≤ d → cost = 0) ∧
          (d < 0 → cost = 1) ∧
          (0 ≤ d → d < self.max_distance_ →
            cost = (self.max_distance_ - d) / self.max_distance_)) ∧
    (start_timestep = 0 → num_timesteps ≤ parameters.cols →
      parameters.cols < INDEX_MODULUS →
      ∃ result : ComputeCostsResult X,
        computeCosts X self parameters start_timestep num_timesteps iteration_number
          rollout_number costs validity = Except.ok result ∧
        result.returned = true ∧ result.validity = true ∧
        result.costs.length = num_timesteps) ∧
    distanceCost (1 / 10) (1 / 20) = 1 / 2 := by
  refine ⟨?_, ?_, ?_⟩
  · intro result hres hret k hk
    have hpass : 0 < (start_timestep + num_timesteps) % SIZE_MODULUS - start_timestep :=
      Nat.lt_of_le_of_lt (Nat.zero_le k) hk
    obtain ⟨hzero, hpasses, hcosts⟩ := computeCosts_returned_true X self parameters
      start_timestep num_timesteps iteration_number rollout_number costs validity robot_state
      robot_model df result hstate hmodel hdf hstart hnum hres hret hpass
    rw [hpasses] at hk
    refine ⟨_, distanceCost self.max_distance_
      (X.distanceSelf df self.distance_request_.group_name self.distance_request_.acm
        (posedAfter X (X.getJointModelGroup robot_model self.group_name_) parameters
          (k + 1) start_timestep robot_state)), rfl, ?_, ?_, ?_, ?_⟩
    · rw [hcosts, hzero, Nat.zero_add]
      exact queriedCosts_get X self (X.getJointModelGroup robot_model self.group_name_)
        parameters df num_timesteps 0 robot_state k hk
    · exact fun h => distanceCost_of_ge h
    · exact fun h => distanceCost_of_neg hmax h
    · exact fun h0 h => distanceCost_of_ramp h0 h
  · intro hzero hrange hcols
    rw [hzero, computeCosts_from_zero X self parameters num_timesteps iteration_number
      rollout_number costs validity robot_state robot_model df hstate hmodel hdf hrange hcols]
    exact ⟨_, rfl, rfl, rfl, queriedCosts_length X self _ parameters df num_timesteps 0
      robot_state⟩
  · rw [distanceCost_of_ramp (by norm_num) (by norm_num)]
    norm_num

/-- Scenario 3 on the bound point robot: maximum distance 0.1 and a batch of one
waypoint at distance 0.05; `computeCosts` returns true with cost 0.5. -/
theorem computeCosts_cost_of_distance_witness :
    (0 : ℚ) < lineRobotBound.max_distance_ ∧
    ∃ result : ComputeCostsResult lineRobot,
      computeCosts lineRobot lineRobotBound [[1 / 20]] 0 1 0 0 [] false = Except.ok result ∧
      result.returned = true ∧ result.costs.get? 0 = some (1 / 2) := by
  have hmax : (0 : ℚ) < lineRobotBound.max_distance_ := by
    show (0 : ℚ) < 1 / 10
    norm_num
  have h := computeCosts_cost_of_distance lineRobot lineRobotBound [[1 / 20]] 0 1 0 0 [] false
    ([1] : List ℚ) () ((1 / 20, 1 / 10) : ℚ × ℚ) hmax rfl rfl rfl (by decide) (by decide)
  obtain ⟨result, hres, hret, -, -⟩ := h.2.1 rfl (by decide) (by decide)
  obtain ⟨d, cost, hd, hget, -, -, hramp⟩ := h.1 result hres hret 0 (by decide)
  have hd1 : d = 1 / 20 := hd
  have hcost : cost = 1 / 2 := by
    have hc := hramp (by rw [hd1]; norm_num) (by rw [hd1]; show (1 / 20 : ℚ) < 1 / 10; norm_num)
    rw [hc, hd1]
    show ((1 / 10 : ℚ) - 1 / 20) / (1 / 10) = 1 / 2
    norm_num
  rw [hcost] at hget
  exact ⟨hmax, result, hres, hret, hget⟩

/-- C6: on an evaluator without a working robot state `computeCosts` returns
false for every batch, start index and count, hands back the caller's cost
vector and validity flag as they were, and leaves the evaluator as it was. -/
theorem computeCosts_without_robot_state (X : MoveIt) (self : ObstacleDistanceGradient X)
    (parameters : MatrixXd) (start_timestep num_timesteps : Nat)
    (iteration_number rollout_number : Int) (costs : VectorXd) (validity : Bool)
    (h : self.robot_state_ = none) :
    computeCosts X self parameters start_timestep num_timesteps iteration_number
      rollout_number costs validity = Except.ok ⟨false, costs, validity, self⟩ := by
  simp only [computeCosts, h]

/-- The configured but unbound point robot rejects a one-waypoint request and
keeps the caller's cost vector `[7]` and validity flag. -/
theorem computeCosts_without_robot_state_witness :
    lineRobotConfigured.robot_state_ = none ∧
    computeCosts lineRobot lineRobotConfigured [[1 / 20]] 0 1 0 0 [7] true =
      Except.ok ⟨false, [7], true, lineRobotConfigured⟩ :=
  ⟨rfl, computeCosts_without_robot_state lineRobot lineRobotConfigured [[1 / 20]] 0 1 0 0
    [7] true rfl⟩

/-- C7: for every distance and every configured maximum distance the cost of the
distance-to-cost rule of `computeCosts` lies in the closed interval [0, 1]. -/
theorem distanceCost_mem_unit_interval (max_distance_ min_distance : ℚ) :
    0 ≤ distanceCost max_distance_ min_distance ∧
    distanceCost max_distance_ min_distance ≤ 1 :=
  ⟨distanceCost_nonneg max_distance_ min_distance,
    distanceCost_le_one max_distance_ min_distance⟩

/-- C8: for a fixed maximum distance (positive or not) the distance-to-cost rule
is non-increasing in the distance: `d1 ≤ d2` gives `cost d2 ≤ cost d1`, across
all three branches. -/
theorem distanceCost_antitone (max_distance_ d1 d2 : ℚ) (h : d1 ≤ d2) :
    distanceCost max_distance_ d2 ≤ distanceCost max_distance_ d1 := by
  rcases le_or_lt max_distance_ d2 with h2 | h2
  · rw [distanceCost_of_ge h2]
    exact distanceCost_nonneg _ _
  · rcases lt_or_le d1 0 with h1 | h1
    · have hcost : distanceCost max_distance_ d1 = 1 := by
        unfold distanceCost
        rw [if_neg (not_le.mpr (lt_of_le_of_lt h h2)), if_pos h1]
      rw [hcost]
      exact distanceCost_le_one _ _
    · have hM : 0 < max_distance_ := lt_of_le_of_lt (le_trans h1 h) h2
      rw [distanceCost_of_ramp (le_trans h1 h) h2,
        distanceCost_of_ramp h1 (lt_of_le_of_lt h h2)]
      exact div_le_div_of_nonneg_right (by linarith) hM.le

/-- Distances 0.05 and 0.1 under maximum distance 0.1. -/
theorem distanceCost_antitone_witness :
    (1 / 20 : ℚ) ≤ 1 / 10 ∧ distanceCost (1 / 10) (1 / 10) ≤ distanceCost (1 / 10) (1 / 20) :=
  ⟨by norm_num, distanceCost_antitone (1 / 10) (1 / 20) (1 / 10) (by norm_num)⟩

/-- C9, as amended: for every positive maximum distance the distance-to-cost rule
has no jump at distance zero from below: its value at zero is 1, its value at
every negative distance is 1, and 1 is its limit as the distance approaches zero
from below. -/
theorem distanceCost_no_jump_at_zero (max_distance_ : ℚ) (hM : 0 < max_distance_) :
    distanceCost max_distance_ 0 = 1 ∧
    (∀ d : ℚ, d < 0 → distanceCost max_distance_ d = 1) ∧
    LeftLimitAt (distanceCost max_distance_) 0 (distanceCost max_distance_ 0) := by
  refine ⟨distanceCost_at_zero hM, fun d hd => distanceCost_of_neg hM hd, ?_⟩
  rw [distanceCost_at_zero hM]
  exact distanceCost_leftLimit_zero hM

/-- Maximum distance 0.1. -/
theorem distanceCost_no_jump_at_zero_witness :
    (0 : ℚ) < 1 / 10 ∧ distanceCost (1 / 10) 0 = 1 ∧
    (∀ d : ℚ, d < 0 → distanceCost (1 / 10) d = 1) ∧
    LeftLimitAt (distanceCost (1 / 10)) 0 (distanceCost (1 / 10) 0) :=
  ⟨by norm_num, distanceCost_no_jump_at_zero (1 / 10) (by norm_num)⟩

/-- C9, as stated, fails for maximum distance 0.1: the value of the rule at zero
is its limit from below, and no limit from below differs from that value. -/
theorem distanceCost_jump_at_zero_refuted :
    LeftLimitAt (distanceCost (1 / 10)) 0 (distanceCost (1 / 10) 0) ∧
    ¬ ∃ L : ℚ, LeftLimitAt (distanceCost (1 / 10)) 0 L ∧ distanceCost (1 / 10) 0 ≠ L := by
  have hM : (0 : ℚ) < 1 / 10 := by norm_num
  constructor
  · rw [distanceCost_at_zero hM]
    exact distanceCost_leftLimit_zero hM
  · rintro ⟨L, hL, hne⟩
    apply hne
    rw [distanceCost_at_zero hM, leftLimit_zero_unique hM hL]

/-- C10: for every positive maximum distance the distance-to-cost rule is
continuous at the maximum distance: the cost there is exactly 0, and for every
`eps > 0` there is `delta > 0` such that every distance strictly between
`maxDistance - delta` and `maxDistance` has cost below `eps`. -/
theorem distanceCost_continuous_at_max (max_distance_ : ℚ) (hM : 0 < max_distance_) :
    distanceCost max_distance_ max_distance_ = 0 ∧
    ∀ eps : ℚ, 0 < eps → ∃ delta : ℚ, 0 < delta ∧
      ∀ d : ℚ, max_distance_ - delta < d → d < max_distance_ →
        distanceCost max_distance_ d < eps := by
  refine ⟨distanceCost_of_ge (le_refl _), ?_⟩
  intro eps heps
  refine ⟨min (eps * max_distance_) max_distance_, lt_min (mul_pos heps hM) hM, ?_⟩
  intro d hlow hhigh
  have h1 : max_distance_ - d < eps * max_distance_ := by
    have := min_le_left (eps * max_distance_) max_distance_
    linarith
  have h0 : 0 ≤ d := by
    have := min_le_right (eps * max_distance_) max_distance_
    linarith
  rw [distanceCost_of_ramp h0 hhigh, div_lt_iff₀ hM]
  exact h1

/-- Maximum distance 0.1. -/
theorem distanceCost_continuous_at_max_witness :
    (0 : ℚ) < 1 / 10 ∧ distanceCost (1 / 10) (1 / 10) = 0 ∧
    ∀ eps : ℚ, 0 < eps → ∃ delta : ℚ, 0 < delta ∧
      ∀ d : ℚ, 1 / 10 - delta < d → d < 1 / 10 → distanceCost (1 / 10) d < eps :=
  ⟨by norm_num, distanceCost_continuous_at_max (1 / 10) (by norm_num)⟩

/-- C2 at a failing input: the bound point robot, a batch of two columns, start
index 1 and count 1. The range check passes, the cost vector has length 1, and
the loop assigns `costs(1)`, outside the vector: the call does not return. -/
theorem computeCosts_start_one_out_of_range :
    lineRobotBound.robot_state_.isSome = true ∧
    lineRobotBound.collision_robot_df_.isSome = true ∧
    1 + 1 ≤ MatrixXd.cols [[1 / 5], [1 / 20]] ∧
    computeCosts lineRobot lineRobotBound [[1 / 5], [1 / 20]] 1 1 0 0 [] false =
      Except.error Fault.indexOutOfRange :=
  ⟨rfl, rfl, by decide, rfl⟩

/-- C3 at a failing input: the bound point robot, a batch of one column, start
index `2 ^ 64 - 1` and count 2. The requested range exceeds the single column,
yet the sum wraps to 1, the range check passes, the loop runs no pass, and the
call returns true with two zero costs and validity true. -/
theorem computeCosts_wrapped_range_accepted :
    2 ^ 64 - 1 < SIZE_MODULUS ∧
    MatrixXd.cols [[1 / 20]] < (2 ^ 64 - 1) + 2 ∧
    computeCosts lineRobot lineRobotBound [[1 / 20]] (2 ^ 64 - 1) 2 0 0 [] false =
      Except.ok ⟨true, [0, 0], true, lineRobotBound⟩ :=
  ⟨by decide, by decide, rfl⟩

/-- C4 at a failing input: the configured point robot and a request whose start
state cannot be converted. The call returns false and leaves `SUCCESS` in
`error_code`, whatever value the caller had stored there. -/
theorem setMotionPlanRequest_failure_reports_success :
    (lineRobot.robotStateMsgToRobotState none
      (lineRobot.newRobotState lineRobotConfigured.robot_model_ptr_)).1 = false ∧
    ∃ self : ObstacleDistanceGradient lineRobot,
      setMotionPlanRequest lineRobot lineRobotConfigured (some lineRobotScene)
        { start_state := none } () 99999 =
        Except.ok (false, MoveItErrorCodes.SUCCESS, self) :=
  ⟨rfl, _, rfl⟩

/-- C5 at a failing input: after the failed bind of the configured point robot a
request for one waypoint at distance 0.05 is not rejected: `computeCosts`
returns true with cost 0.5 and validity true. -/
theorem computeCosts_after_failed_bind_accepted :
    ∃ (self : ObstacleDistanceGradient lineRobot) (result : ComputeCostsResult lineRobot),
      setMotionPlanRequest lineRobot lineRobotConfigured (some lineRobotScene)
        { start_state := none } () 0 = Except.ok (false, MoveItErrorCodes.SUCCESS, self) ∧
      computeCosts lineRobot self [[1 / 20]] 0 1 0 0 [] false = Except.ok result ∧
      result.returned = true ∧ result.costs = [1 / 2] ∧ result.validity = true := by
  refine ⟨_, _, rfl, rfl, rfl, ?_, rfl⟩
  show [distanceCost (1 / 10) (1 / 20)] = [1 / 2]
  rw [distanceCost_of_ramp (by norm_num) (by norm_num)]
  norm_num

/-- C11: for every configuration input that lacks at least one of the keys
`cost_weight`, `voxel_size`, `max_distance`, whatever other keys it has,
`configure` returns false and leaves the whole object (stored weight, voxel
size, maximum distance and distance field included) exactly as it was. -/
theorem configure_missing_key (X : MoveIt) (self : ObstacleDistanceGradient X)
    (config : XmlRpcStruct)
    (h : config.hasMember "cost_weight" = false ∨ config.hasMember "voxel_size" = false ∨
      config.hasMember "max_distance" = false) :
    (configure X self config).1 = false ∧
    (configure X self config).2 = self ∧
    (configure X self config).2.cost_weight_ = self.cost_weight_ ∧
    (configure X self config).2.voxel_size_ = self.voxel_size_ ∧
    (configure X self config).2.max_distance_ = self.max_distance_ ∧
    (configure X self config).2.collision_robot_df_ = self.collision_robot_df_ := by
  have hall : (["cost_weight", "voxel_size", "max_distance"].all
      (fun m => config.hasMember m)) = false := by
    cases hcase : (["cost_weight", "voxel_size", "max_distance"].all
      (fun m => config.hasMember m)) with
    | false => rfl
    | true =>
      obtain ⟨h1, h2, h3⟩ := (all_members_iff config).mp hcase
      rcases h with h | h | h
      · rw [h1] at h; cases h
      · rw [h2] at h; cases h
      · rw [h3] at h; cases h
  rw [configure_of_missing X self config hall]
  exact ⟨rfl, rfl, rfl, rfl, rfl, rfl⟩

/-- Scenario 5 on the constructed point robot: the key `voxel_size` is missing,
`configure` fails and the object stays unset. -/
theorem configure_missing_key_witness :
    missingVoxelConfig.hasMember "voxel_size" = false ∧
    (configure lineRobot lineRobotConstructed missingVoxelConfig).1 = false ∧
    (configure lineRobot lineRobotConstructed missingVoxelConfig).2 = lineRobotConstructed ∧
    (configure lineRobot lineRobotConstructed missingVoxelConfig).2.collision_robot_df_ =
      none := by
  have h := configure_missing_key lineRobot lineRobotConstructed missingVoxelConfig
    (Or.inr (Or.inl rfl))
  exact ⟨rfl, h.1, h.2.1, h.2.2.2.2.2⟩

/-- C12, as amended: for every configuration input that has all three keys but in
which at least one value cannot be coerced, `configure` returns false, builds
no distance field and leaves the stored voxel size as it was; the stored
maximum distance is changed only if its own value can be coerced (otherwise the
whole object stays as it was), and the stored weight only if its own value can
be coerced. -/
theorem configure_uncoercible (X : MoveIt) (self : ObstacleDistanceGradient X)
    (config : XmlRpcStruct)
    (hall : config.hasMember "cost_weight" = true ∧ config.hasMember "voxel_size" = true ∧
      config.hasMember "max_distance" = true)
    (hbad : config.asDouble "max_distance" = none ∨ config.asDouble "cost_weight" = none ∨
      config.asDouble "voxel_size" = none) :
    (configure X self config).1 = false ∧
    (configure X self config).2.collision_robot_df_ = self.collision_robot_df_ ∧
    configureConstructions X self config = 0 ∧
    (configure X self config).2.voxel_size_ = self.voxel_size_ ∧
    (config.asDouble "max_distance" = none → (configure X self config).2 = self) ∧
    (config.asDouble "cost_weight" = none →
      (configure X self config).2.cost_weight_ = self.cost_weight_) := by
  have hall1 := (all_members_iff config).mpr hall
  rw [configure_of_present X self config hall1]
  unfold configureConstructions
  rw [hall1]
  cases hm : config.asDouble "max_distance" with
  | none => simp
  | some m =>
    cases hw : config.asDouble "cost_weight" with
    | none => simp
    | some w =>
      cases hv : config.asDouble "voxel_size" with
      | none => simp
      | some v =>
        rw [hm, hw, hv] at hbad
        simp at hbad

/-- The constructed point robot and the configuration with an integer weight. -/
theorem configure_uncoercible_witness :
    intWeightConfig.asDouble "cost_weight" = none ∧
    (configure lineRobot lineRobotConstructed intWeightConfig).1 = false ∧
    (configure lineRobot lineRobotConstructed intWeightConfig).2.collision_robot_df_ = none ∧
    (configure lineRobot lineRobotConstructed intWeightConfig).2.voxel_size_ = 0 ∧
    (configure lineRobot lineRobotConstructed intWeightConfig).2.cost_weight_ = 0 := by
  have h := configure_uncoercible lineRobot lineRobotConstructed intWeightConfig
    ⟨rfl, rfl, rfl⟩ (Or.inr (Or.inl rfl))
  exact ⟨rfl, h.1, h.2.1, h.2.2.2.1, h.2.2.2.2.2 rfl⟩

/-- C12, as stated, fails on the constructed point robot: with an integer weight
all three keys are present and `configure` returns false, yet the stored
maximum distance has changed from 0 to 0.1. -/
theorem configure_uncoercible_weight_changes_max_distance :
    intWeightConfig.hasMember "cost_weight" = true ∧
    intWeightConfig.hasMember "voxel_size" = true ∧
    intWeightConfig.hasMember "max_distance" = true ∧
    intWeightConfig.asDouble "cost_weight" = none ∧
    (configure lineRobot lineRobotConstructed intWeightConfig).1 = false ∧
    lineRobotConstructed.max_distance_ = 0 ∧
    (configure lineRobot lineRobotConstructed intWeightConfig).2.max_distance_ = 1 / 10 ∧
    (configure lineRobot lineRobotConstructed intWeightConfig).2.max_distance_ ≠
      lineRobotConstructed.max_distance_ := by
  refine ⟨rfl, rfl, rfl, rfl, rfl, rfl, rfl, ?_⟩
  show (1 / 10 : ℚ) ≠ 0
  norm_num

/-- C13, as amended: a call of `configure` on an evaluator that already holds a
distance field keeps that field and constructs nothing, whatever voxel size and
maximum distance the new configuration stores. -/
theorem configure_keeps_held_field (X : MoveIt) (self : ObstacleDistanceGradient X)
    (config : XmlRpcStruct) (df : X.CollisionRobotOpenVDB)
    (hheld : self.collision_robot_df_ = some df) :
    (configure X self config).2.collision_robot_df_ = some df ∧
    configureConstructions X self config = 0 :=
  configure_of_held_field X self config df hheld

/-- The configured point robot keeps its field under the changed configuration. -/
theorem configure_keeps_held_field_witness :
    lineRobotConfigured.collision_robot_df_ = some ((1 / 20, 1 / 10) : ℚ × ℚ) ∧
    (configure lineRobot lineRobotConfigured changedConfig).2.collision_robot_df_ =
      some ((1 / 20, 1 / 10) : ℚ × ℚ) ∧
    configureConstructions lineRobot lineRobotConfigured changedConfig = 0 :=
  ⟨rfl, configure_keeps_held_field lineRobot lineRobotConfigured changedConfig
    ((1 / 20, 1 / 10) : ℚ × ℚ) rfl⟩

/-- C13, as stated, fails on the configured point robot: `configure` with voxel
size 0.02 and maximum distance 0.2 succeeds and stores them, but the held field
is still the one built from 0.05 and 0.1, not the one these values construct. -/
theorem configure_changed_parameters_not_rebuilt :
    lineRobotConfigured.collision_robot_df_ = some ((1 / 20, 1 / 10) : ℚ × ℚ) ∧
    (configure lineRobot lineRobotConfigured changedConfig).1 = true ∧
    (configure lineRobot lineRobotConfigured changedConfig).2.voxel_size_ = 1 / 50 ∧
    (configure lineRobot lineRobotConfigured changedConfig).2.max_distance_ = 1 / 5 ∧
    (configure lineRobot lineRobotConfigured changedConfig).2.collision_robot_df_ ≠
      some (lineRobot.newCollisionRobotOpenVDB (some ()) (1 / 50) (1 / 5)
        ((1 / 5) / (1 / 50)) ((1 / 5) / (1 / 50))) := by
  refine ⟨rfl, rfl, rfl, rfl, ?_⟩
  show some ((1 / 20, 1 / 10) : ℚ × ℚ) ≠ some ((1 / 50, 1 / 5) : ℚ × ℚ)
  intro h
  have h1 : (1 / 20 : ℚ) = 1 / 50 := congrArg Prod.fst (Option.some.inj h)
  norm_num at h1

/-- C14: configuring twice with the same valid parameters constructs the
distance field exactly once. The first `configure`, on an evaluator without a
field, succeeds with one construction and builds the field with bandwidth
`maxDistance / voxelSize` for both bandwidths; the second succeeds with no
construction and leaves the field and the whole object as they were; and every
`configure` on an evaluator that holds a field keeps that field. -/
theorem configure_twice_constructs_once (X : MoveIt) (self : ObstacleDistanceGradient X)
    (config : XmlRpcStruct) (m w v : ℚ)
    (hall : config.hasMember "cost_weight" = true ∧ config.hasMember "voxel_size" = true ∧
      config.hasMember "max_distance" = true)
    (hm : config.asDouble "max_distance" = some m)
    (hw : config.asDouble "cost_weight" = some w)
    (hv : config.asDouble "voxel_size" = some v)
    (hnone : self.collision_robot_df_ = none) :
    (configure X self config).1 = true ∧
    configureConstructions X self config = 1 ∧
    (configure X self config).2.collision_robot_df_ =
      some (X.newCollisionRobotOpenVDB self.robot_model_ptr_ v m (m / v) (m / v)) ∧
    (configure X (configure X self config).2 config).1 = true ∧
    configureConstructions X (configure X self config).2 config = 0 ∧
    (configure X (configure X self config).2 config).2.collision_robot_df_ =
      (configure X self config).2.collision_robot_df_ ∧
    (configure X (configure X self config).2 config).2 = (configure X self config).2 ∧
    (∀ (held : ObstacleDistanceGradient X) (df : X.CollisionRobotOpenVDB),
      held.collision_robot_df_ = some df →
      (configure X held config).1 = true ∧
      (configure X held config).2.collision_robot_df_ = some df ∧
      configureConstructions X held config = 0) := by
  have hall1 := (all_members_iff config).mpr hall
  have hfirst : configure X self config = (true, { self with
      max_distance_ := m, cost_weight_ := w, voxel_size_ := v,
      collision_robot_df_ := some (X.newCollisionRobotOpenVDB self.robot_model_ptr_
        v m (m / v) (m / v)) }) := by
    rw [configure_of_coercible X self config m w v hall1 hm hw hv, hnone]
  have hcount : configureConstructions X self config = 1 := by
    unfold configureConstructions
    rw [hall1, hm, hw, hv, hnone]
    rfl
  have hheld : ∀ (held : ObstacleDistanceGradient X) (df : X.CollisionRobotOpenVDB),
      held.collision_robot_df_ = some df →
      configure X held config = (true, { held with
        max_distance_ := m, cost_weight_ := w, voxel_size_ := v }) := by
    intro held df hdf
    rw [configure_of_coercible X held config m w v hall1 hm hw hv, hdf]
  have hsecond := hheld (configure X self config).2 _ (by rw [hfirst])
  refine ⟨by rw [hfirst], hcount, by rw [hfirst], by rw [hsecond], ?_, ?_, ?_, ?_⟩
  · exact (configure_of_held_field X _ config _ (by rw [hfirst])).2
  · rw [hsecond]
  · rw [hsecond, hfirst]
  · intro held df hdf
    refine ⟨by rw [hheld held df hdf], ?_⟩
    exact configure_of_held_field X held config df hdf

/-- The constructed point robot configured twice with the scenario
configuration: one construction, with bandwidth 0.1 / 0.05 on both sides. -/
theorem configure_twice_constructs_once_witness :
    configureConstructions lineRobot lineRobotConstructed scenarioConfig = 1 ∧
    (configure lineRobot lineRobotConstructed scenarioConfig).2.collision_robot_df_ =
      some (lineRobot.newCollisionRobotOpenVDB (some ()) (1 / 20) (1 / 10)
        ((1 / 10) / (1 / 20)) ((1 / 10) / (1 / 20))) ∧
    configureConstructions lineRobot
      (configure lineRobot lineRobotConstructed scenarioConfig).2 scenarioConfig = 0 ∧
    (configure lineRobot (configure lineRobot lineRobotConstructed scenarioConfig).2
      scenarioConfig).2 = (configure lineRobot lineRobotConstructed scenarioConfig).2 := by
  have h := configure_twice_constructs_once lineRobot lineRobotConstructed scenarioConfig
    (1 / 10) 1 (1 / 20) ⟨rfl, rfl, rfl⟩ rfl rfl rfl rfl
  exact ⟨h.2.1, h.2.2.1, h.2.2.2.2.1, h.2.2.2.2.2.2.1⟩

/-- C17, as amended: `configure` accepts a configuration exactly when the three
keys are present and their values can be coerced to real numbers, and it then
stores these values as given; no sign and no order between them is checked. -/
theorem configure_accepts_iff (X : MoveIt) (self : ObstacleDistanceGradient X)
    (config : XmlRpcStruct) :
    (configure X self config).1 = true ↔
      (config.hasMember "cost_weight" = true ∧ config.hasMember "voxel_size" = true ∧
        config.hasMember "max_distance" = true) ∧
      ∃ m w v : ℚ, config.asDouble "max_distance" = some m ∧
        config.asDouble "cost_weight" = some w ∧ config.asDouble "voxel_size" = some v ∧
        (configure X self config).2.max_distance_ = m ∧
        (configure X self config).2.cost_weight_ = w ∧
        (configure X self config).2.voxel_size_ = v := by
  constructor
  · intro hok
    cases hall : (["cost_weight", "voxel_size", "max_distance"].all
        (fun k => config.hasMember k)) with
    | false =>
      rw [configure_of_missing X self config hall] at hok
      cases hok
    | true =>
      refine ⟨(all_members_iff config).mp hall, ?_⟩
      rw [configure_of_present X self config hall] at hok ⊢
      cases hm : config.asDouble "max_distance" with
      | none => rw [hm] at hok; cases hok
      | some m =>
        cases hw : config.asDouble "cost_weight" with
        | none => rw [hm, hw] at hok; cases hok
        | some w =>
          cases hv : config.asDouble "voxel_size" with
          | none => rw [hm, hw, hv] at hok; cases hok
          | some v =>
            refine ⟨m, w, v, rfl, rfl, rfl, ?_⟩
            cases self.collision_robot_df_ <;> exact ⟨rfl, rfl, rfl⟩
  · rintro ⟨hall, m, w, v, hm, hw, hv, -⟩
    rw [configure_of_coercible X self config m w v ((all_members_iff config).mpr hall) hm hw hv]
    cases self.collision_robot_df_ <;> rfl

/-- C17, as stated, fails on the constructed point robot: `configure` accepts a
configuration with weight -1, voxel size 0.2 and maximum distance 0.1, and
stores these values. -/
theorem configure_accepts_invalid_values :
    (configure lineRobot lineRobotConstructed negativeConfig).1 = true ∧
    (configure lineRobot lineRobotConstructed negativeConfig).2.cost_weight_ = -1 ∧
    (configure lineRobot lineRobotConstructed negativeConfig).2.voxel_size_ = 1 / 5 ∧
    (configure lineRobot lineRobotConstructed negativeConfig).2.max_distance_ = 1 / 10 ∧
    ¬ ((0 : ℚ) < (configure lineRobot lineRobotConstructed negativeConfig).2.cost_weight_) ∧
    (configure lineRobot lineRobotConstructed negativeConfig).2.max_distance_ ≤
      (configure lineRobot lineRobotConstructed negativeConfig).2.voxel_size_ := by
  refine ⟨rfl, rfl, rfl, rfl, ?_, ?_⟩
  · show ¬ ((0 : ℚ) < -1)
    norm_num
  · show (1 / 10 : ℚ) ≤ 1 / 5
    norm_num

/-- The constructed point robot accepts the scenario configuration. -/
theorem configure_accepts_iff_witness :
    (configure lineRobot lineRobotConstructed scenarioConfig).1 = true :=
  (configure_accepts_iff lineRobot lineRobotConstructed scenarioConfig).mpr
    ⟨⟨rfl, rfl, rfl⟩, 1 / 10, 1, 1 / 20, rfl, rfl, rfl, rfl, rfl, rfl⟩

/-- C15: the result of `computeCosts` does not depend on the stored weight nor on
the iteration and rollout numbers. Two runs on evaluators that differ only in
the weight, with the same batch, start index, count and caller values but any
two pairs of iteration and rollout numbers, return the same flag, the same cost
vector and the same validity (or end in the same fault); the objects they leave
behind differ only in the weight. -/
theorem computeCosts_independent_of_weight_and_ids (X : MoveIt)
    (self : ObstacleDistanceGradient X) (parameters : MatrixXd)
    (start_timestep num_timesteps : Nat)
    (iteration_number rollout_number iteration_number1 rollout_number1 : Int)
    (costs : VectorXd) (validity : Bool) (w : ℚ) :
    Except.map (fun r => (r.returned, r.costs, r.validity))
        (computeCosts X { self with cost_weight_ := w } parameters start_timestep num_timesteps
          iteration_number1 rollout_number1 costs validity) =
      Except.map (fun r => (r.returned, r.costs, r.validity))
        (computeCosts X self parameters start_timestep num_timesteps iteration_number
          rollout_number costs validity) ∧
    computeCosts X { self with cost_weight_ := w } parameters start_timestep num_timesteps
        iteration_number1 rollout_number1 costs validity =
      Except.map (fun r => { r with self := { r.self with cost_weight_ := w } })
        (computeCosts X self parameters start_timestep num_timesteps iteration_number
          rollout_number costs validity) := by
  obtain ⟨name, model, group, scene, request, distance_request, state, field, max_distance,
    weight, voxel⟩ := self
  unfold computeCosts
  dsimp only
  cases state with
  | none => exact ⟨rfl, rfl⟩
  | some robot_state =>
    dsimp only
    cases VectorXd.Zero num_timesteps with
    | error f => exact ⟨rfl, rfl⟩
    | ok costs1 =>
      dsimp only
      cases model with
      | none => exact ⟨rfl, rfl⟩
      | some robot_model =>
        dsimp only
        split_ifs
        · exact ⟨rfl, rfl⟩
        · have hloop := computeCostsLoop_weight X
            ⟨name, some robot_model, group, scene, request, distance_request, some robot_state,
              field, max_distance, weight, voxel⟩
            (X.getJointModelGroup robot_model group) parameters w
            ((start_timestep + num_timesteps) % SIZE_MODULUS - start_timestep) start_timestep
            robot_state costs1
          dsimp only at hloop
          rw [hloop]
          cases computeCostsLoop X
            ⟨name, some robot_model, group, scene, request, distance_request, some robot_state,
              field, max_distance, weight, voxel⟩
            (X.getJointModelGroup robot_model group) parameters
            ((start_timestep + num_timesteps) % SIZE_MODULUS - start_timestep) start_timestep
            robot_state costs1 with
          | error f => exact ⟨rfl, rfl⟩
          | ok pair => exact ⟨rfl, rfl⟩

/-- C16 at a failing input: `done` on the bound point robot empties the robot
state and keeps the configuration and the distance field; a `setMotionPlanRequest`
whose start state cannot be converted then returns false, so no successful
bind has happened, yet the following `computeCosts` for one waypoint at
distance 0.05 returns true with cost 0.5 and validity true. -/
theorem computeCosts_after_done_and_failed_bind_accepted :
    (done lineRobot lineRobotBound true 10 0).robot_state_ = none ∧
    (done lineRobot lineRobotBound true 10 0).collision_robot_df_ =
      lineRobotBound.collision_robot_df_ ∧
    (done lineRobot lineRobotBound true 10 0).max_distance_ = lineRobotBound.max_distance_ ∧
    ∃ (self : ObstacleDistanceGradient lineRobot) (result : ComputeCostsResult lineRobot),
      setMotionPlanRequest lineRobot (done lineRobot lineRobotBound true 10 0)
        (some lineRobotScene) { start_state := none } () 0 =
        Except.ok (false, MoveItErrorCodes.SUCCESS, self) ∧
      computeCosts lineRobot self [[1 / 20]] 0 1 0 0 [] false = Except.ok result ∧
      result.returned = true ∧ result.costs = [1 / 2] ∧ result.validity = true := by
  refine ⟨rfl, rfl, rfl, _, _, rfl, rfl, rfl, ?_, rfl⟩
  show [distanceCost (1 / 10) (1 / 20)] = [1 / 2]
  rw [distanceCost_of_ramp (by norm_num) (by norm_num)]
  norm_num

/-- C18 at a failing input: the bound point robot, a batch of three columns,
start index 1 and count 2. The range check passes and the cost vector has
length 2; the first pass writes index 1, the second pass writes index 2, which
is not below 2, and the call does not return. -/
theorem computeCosts_second_write_out_of_range :
    1 + 2 ≤ MatrixXd.cols [[1 / 5], [1 / 20], [-1]] ∧
    VectorXd.Zero 2 = Except.ok [0, 0] ∧
    computeCostsBody lineRobot lineRobotBound "manipulator" [[1 / 5], [1 / 20], [-1]] 1
      ([1] : List ℚ) [0, 0] =
      Except.ok (([1 / 20] : List ℚ), [0, distanceCost (1 / 10) (1 / 20)]) ∧
    computeCostsBody lineRobot lineRobotBound "manipulator" [[1 / 5], [1 / 20], [-1]] 2
      ([1 / 20] : List ℚ) [0, distanceCost (1 / 10) (1 / 20)] =
      Except.error Fault.indexOutOfRange ∧
    ¬ (2 < List.length [0, distanceCost (1 / 10) (1 / 20)]) ∧
    computeCosts lineRobot lineRobotBound [[1 / 5], [1 / 20], [-1]] 1 2 0 0 [] false =
      Except.error Fault.indexOutOfRange :=
  ⟨by decide, rfl, rfl, rfl, by decide, rfl⟩

/-- C19: for every stored maximum distance and every distance, the ramp branch of
the distance-to-cost rule, the only one that divides by the maximum distance,
is selected only when the maximum distance is positive; the divisor is then not
zero and the cost is `(maxDistance - d) / maxDistance`. -/
theorem distanceCost_ramp_divisor_pos (max_distance_ min_distance : ℚ)
    (h : distanceCostBranch max_distance_ min_distance = CostBranch.ramp) :
    0 < max_distance_ ∧ max_distance_ ≠ 0 ∧
    distanceCost max_distance_ min_distance =
      (max_distance_ - min_distance) / max_distance_ := by
  obtain ⟨h0, hlt⟩ := (distanceCostBranch_ramp_iff max_distance_ min_distance).mp h
  have hpos : 0 < max_distance_ := lt_of_le_of_lt h0 hlt
  exact ⟨hpos, ne_of_gt hpos, distanceCost_of_ramp h0 hlt⟩

/-- Distance 0.05 under maximum distance 0.1 is on the ramp. -/
theorem distanceCost_ramp_divisor_pos_witness :
    distanceCostBranch (1 / 10) (1 / 20) = CostBranch.ramp ∧ (0 : ℚ) < 1 / 10 := by
  have hramp : distanceCostBranch (1 / 10) (1 / 20) = CostBranch.ramp :=
    (distanceCostBranch_ramp_iff (1 / 10) (1 / 20)).mpr ⟨by norm_num, by norm_num⟩
  exact ⟨hramp, (distanceCost_ramp_divisor_pos (1 / 10) (1 / 20) hramp).1⟩

end stomp_moveit
